import Mathlib

set_option linter.all false

namespace Raddai

/-! Shallow embedding of the grading and fee-ledger logic of the core app
(models.py, serializers.py, views.py). Monetary amounts and scores are Python
Decimal values in the source; on these code paths Decimal arithmetic is exact,
so they are embedded as rationals. Python truthiness of a Decimal maps to
being nonzero, of a string to being nonempty, of an optional value to isSome. -/

/-- Term choices (models.py 154-158 for results; payments use the first three,
models.py 268-272). -/
inductive RTerm
  | first
  | second
  | third
  | final
deriving DecidableEq

/-- FeeStructure.FeeType choices (models.py 235-240). -/
inductive FeeType
  | tuition
  | examination
  | transport
  | hostel
  | other
deriving DecidableEq

/-- FeePayment.PaymentStatus choices (models.py 258-262); the constructor
named part stands for the PARTIAL choice of the source. -/
inductive PayStatus
  | pending
  | paid
  | overdue
  | part
deriving DecidableEq

/-- Letter-grade banding performed inside Result.save (models.py 196-212). -/
def gradeOf (percentage : ℚ) : String :=
  if percentage ≥ 90 then "A+"
  else if percentage ≥ 80 then "A"
  else if percentage ≥ 70 then "B+"
  else if percentage ≥ 60 then "B"
  else if percentage ≥ 50 then "C+"
  else if percentage ≥ 40 then "C"
  else if percentage ≥ 30 then "D"
  else "F"

/-- The Result.percentage property (models.py 224-229). -/
def resultPercentage (marksObtained totalMarks : ℚ) : ℚ :=
  if totalMarks > 0 then marksObtained / totalMarks * 100 else 0

/-- Raw score inputs of one result write (models.py 167-173). -/
structure ResultScores where
  ca1 : ℚ
  ca2 : ℚ
  ca3 : ℚ
  ca4 : ℚ
  exam : ℚ
deriving DecidableEq

/-- Derived fields computed by Result.save before persisting
(models.py 186-214). -/
structure SavedResult where
  marksObtained : ℚ
  totalMarks : ℚ
  grade : String
deriving DecidableEq

/-- Result.save (models.py 186-214): marks_obtained = CA total + exam score,
total_marks fixed at 100, grade banded from the percentage property. -/
def resultSave (s : ResultScores) : SavedResult :=
  let caTotal := s.ca1 + s.ca2 + s.ca3 + s.ca4
  let marks := caTotal + s.exam
  let total : ℚ := 100
  { marksObtained := marks
    totalMarks := total
    grade := gradeOf (resultPercentage marks total) }

/-- Unique key of a Result row (models.py 183-184). -/
structure ResultKey where
  student : ℕ
  subject : ℕ
  academicYear : ℕ
  term : RTerm
deriving DecidableEq

/-- Validated input of one result-recording request. -/
structure ResultInput where
  key : ResultKey
  scores : ResultScores
deriving DecidableEq

/-- A persisted Result row: key, raw scores, derived fields. -/
structure ResultRow where
  key : ResultKey
  scores : ResultScores
  saved : SavedResult
deriving DecidableEq

/-- Field-level validation of ResultSerializer (serializers.py 211-234): each
out-of-range field contributes a (field, message) error, collected in field
order before any write happens. -/
def validateResultScores (s : ResultScores) : List (String × String) :=
  (if s.ca1 < 0 ∨ s.ca1 > 10
    then [("ca1_score", "CA1 score must be between 0 and 10")] else []) ++
  (if s.ca2 < 0 ∨ s.ca2 > 10
    then [("ca2_score", "CA2 score must be between 0 and 10")] else []) ++
  (if s.ca3 < 0 ∨ s.ca3 > 10
    then [("ca3_score", "CA3 score must be between 0 and 10")] else []) ++
  (if s.ca4 < 0 ∨ s.ca4 > 10
    then [("ca4_score", "CA4 score must be between 0 and 10")] else []) ++
  (if s.exam < 0 ∨ s.exam > 60
    then [("exam_score", "Exam score must be between 0 and 60")] else [])

/-- The error raised when the (student, subject, academic_year, term) key of a
create request already exists, per the unique_together constraint declared at
models.py 183-184 and enforced before any write on the create path. -/
def uniqueTogetherError : List (String × String) :=
  [("non_field_errors",
    "The fields student, subject, academic_year, term must make a unique set.")]

/-- The result create path: ResultViewSet.perform_create (views.py 293-298)
saves the validated serializer. Field validators run first; a request whose
(student, subject, academic_year, term) key already has a row is rejected by
the unique-together constraint of models.py 183-184 (checked before any write),
so the create path never updates an existing row and never duplicates one.
Returns the table after the call together with the outcome. -/
def resultCreate (db : List ResultRow) (inp : ResultInput) :
    List ResultRow × Except (List (String × String)) ResultRow :=
  let errs := validateResultScores inp.scores
  if errs ≠ [] then (db, Except.error errs)
  else if db.any (fun r => decide (r.key = inp.key)) then
    (db, Except.error uniqueTogetherError)
  else
    let row : ResultRow := { key := inp.key, scores := inp.scores, saved := resultSave inp.scores }
    (db ++ [row], Except.ok row)

/-- Stable descending insertion, modelling the in-place
sort by average_percentage descending of views.py 722-723. -/
def insertDesc (x : ℚ) : List ℚ → List ℚ
  | [] => [x]
  | y :: ys => if x > y then x :: y :: ys else y :: insertDesc x ys

/-- Sort a list of percentages in descending order. -/
def sortDesc (l : List ℚ) : List ℚ := l.foldr insertDesc []

/-- The position-assignment loop of get_class_rankings (views.py 727-736):
i is the 0-based index in the sorted list, cur the current position, prev the
percentage of the previous student; a strictly lower percentage moves the
position to i + 1 (the 1-indexed place in the sorted list). -/
def positionsGo (i cur : ℕ) (prev : Option ℚ) : List ℚ → List (ℚ × ℕ)
  | [] => []
  | p :: rest =>
    let cur2 := match prev with
      | none => cur
      | some pv => if p < pv then i + 1 else cur
    (p, cur2) :: positionsGo (i + 1) cur2 (some p) rest

/-- Assign positions to an already-sorted list of percentages
(views.py 727-736). -/
def assignPositions (l : List ℚ) : List (ℚ × ℕ) := positionsGo 0 1 none l

/-- Sort average percentages descending, then assign positions
(views.py 722-736). -/
def rankWithPositions (pcts : List ℚ) : List (ℚ × ℕ) :=
  assignPositions (sortDesc pcts)

/-- A Class row, reduced to the fields the fee ledger reads
(models.py 72-84). -/
structure ClassRow where
  id : ℕ
  grade : ℤ
deriving DecidableEq

/-- A Student row, reduced to the fields the fee ledger reads: the nullable
current_class reference (models.py 100-108). -/
structure StudentRow where
  id : ℕ
  currentClass : Option ClassRow
deriving DecidableEq

/-- A FeeStructure row (models.py 232-249). -/
structure FeeStructureRow where
  id : ℕ
  academicYear : ℕ
  grade : ℤ
  feeType : FeeType
  amount : ℚ
deriving DecidableEq

/-- The validated data of one fee-payment request as read by
FeePaymentViewSet.create (views.py 388-396). The student is resolved;
academic_year and term are nullable; fee_structure is the caller-supplied
(advisory) structure reference, handled defensively by the view when absent.
Metadata strings default to empty, due_date to none, when not supplied. -/
structure PaymentRequest where
  student : StudentRow
  academicYear : Option ℕ
  term : Option RTerm
  feeStructure : Option FeeStructureRow
  amountPaid : ℚ
  totalAmount : ℚ
  paymentMethod : String
  transactionId : String
  remarks : String
  dueDate : Option ℕ
deriving DecidableEq

/-- A FeePayment ledger row (models.py 255-287); dates are abstracted to
naturals, the day ordinal. -/
structure FeePaymentRow where
  studentId : ℕ
  feeStructureId : Option ℕ
  academicYear : Option ℕ
  term : Option RTerm
  amountPaid : ℚ
  totalAmount : ℚ
  dueDate : Option ℕ
  status : PayStatus
  paymentMethod : String
  transactionId : String
  remarks : String
deriving DecidableEq

/-- The grade-based tuition FeeStructure filter of views.py 411-415. -/
def tuitionRowFor (y : ℕ) (g : ℤ) (fs : FeeStructureRow) : Bool :=
  decide (fs.academicYear = y ∧ fs.grade = g ∧ fs.feeType = FeeType.tuition)

/-- Resolution of the authoritative full term fee (views.py 405-434).
When the student has a current class and an academic year is given, the
grade-based tuition row is looked up; the resolved structure is that row or,
failing that, the caller-supplied one, and its amount is the full amount.
Otherwise the caller-supplied structure (if any) supplies the amount, and with
no structure at all the payload total_amount is used when nonzero (Python
truthiness of the or-chain at views.py 430), else the incoming amount.
Returns the full amount and the resolved structure. -/
def resolveFullAmount (fss : List FeeStructureRow) (req : PaymentRequest) :
    ℚ × Option FeeStructureRow :=
  let step1 : Option ℚ × Option FeeStructureRow :=
    match req.student.currentClass, req.academicYear with
    | some c, some y =>
      let resolved := (fss.find? (tuitionRowFor y c.grade)).orElse
        (fun _ => req.feeStructure)
      match resolved with
      | some fs => (some fs.amount, some fs)
      | none => (none, none)
    | _, _ => (none, req.feeStructure)
  match step1 with
  | (some a, resolved) => (a, resolved)
  | (none, resolved) =>
    match resolved with
    | some fs => (fs.amount, some fs)
    | none =>
      (if req.totalAmount ≠ 0 then req.totalAmount else req.amountPaid, none)

/-- Update of the existing ledger row (views.py 444-474): accumulate the
incoming amount, cap at the full amount when that is nonzero, refresh
total_amount when the full amount is nonzero, overwrite the metadata fields
only when the incoming value is truthy, then derive the status. -/
def applyPaymentToExisting (existing : FeePaymentRow) (fullAmount : ℚ)
    (req : PaymentRequest) : FeePaymentRow :=
  let newPaid0 := existing.amountPaid + req.amountPaid
  let newPaid := if fullAmount ≠ 0 then min newPaid0 fullAmount else newPaid0
  { existing with
    amountPaid := newPaid
    totalAmount := if fullAmount ≠ 0 then fullAmount else existing.totalAmount
    paymentMethod :=
      if req.paymentMethod ≠ "" then req.paymentMethod else existing.paymentMethod
    transactionId :=
      if req.transactionId ≠ "" then req.transactionId else existing.transactionId
    remarks := if req.remarks ≠ "" then req.remarks else existing.remarks
    dueDate := match req.dueDate with
      | some d => some d
      | none => existing.dueDate
    status :=
      if fullAmount ≠ 0 ∧ newPaid ≥ fullAmount then PayStatus.paid
      else if newPaid > 0 then PayStatus.part
      else PayStatus.pending }

/-- Creation of a fresh ledger row (views.py 479-506). -/
def createNewPayment (fullAmount : ℚ) (req : PaymentRequest)
    (resolvedFs : Option FeeStructureRow) : FeePaymentRow :=
  let total := if fullAmount ≠ 0 then fullAmount else req.amountPaid
  let paid := min req.amountPaid total
  { studentId := req.student.id
    feeStructureId := resolvedFs.map (fun fs => fs.id)
    academicYear := req.academicYear
    term := req.term
    amountPaid := paid
    totalAmount := total
    dueDate := req.dueDate
    status :=
      if total ≠ 0 ∧ paid ≥ total then PayStatus.paid
      else if paid > 0 then PayStatus.part
      else PayStatus.pending
    paymentMethod := req.paymentMethod
    transactionId := req.transactionId
    remarks := req.remarks }

/-- The ledger-row lookup key of views.py 438-442. -/
def paymentKeyMatches (req : PaymentRequest) (r : FeePaymentRow) : Bool :=
  decide (r.studentId = req.student.id ∧ r.academicYear = req.academicYear ∧
    r.term = req.term)

/-- Replace the first row matched by p, modelling existing.save overwriting
the found row in place. -/
def replaceFirst (p : FeePaymentRow → Bool) (x : FeePaymentRow) :
    List FeePaymentRow → List FeePaymentRow
  | [] => []
  | a :: as => if p a then x :: as else a :: replaceFirst p x as

/-- FeePaymentViewSet.create after validation (views.py 398-509): resolve the
full amount, then accumulate onto the existing (student, academic_year, term)
row if one exists, else create a new row. Returns the table and the row the
response serializes. -/
def feePaymentCreate (fss : List FeeStructureRow) (db : List FeePaymentRow)
    (req : PaymentRequest) : List FeePaymentRow × FeePaymentRow :=
  let res := resolveFullAmount fss req
  match db.find? (paymentKeyMatches req) with
  | some existing =>
    let updated := applyPaymentToExisting existing res.1 req
    (replaceFirst (paymentKeyMatches req) updated db, updated)
  | none =>
    let row := createNewPayment res.1 req res.2
    (db ++ [row], row)

/-- Amount validation performed by FeePaymentSerializer (serializers.py
246-254): the serializer declares only extra read-only display fields and no
validate methods, so no range or sign check on amounts exists and the list of
amount-validation errors is empty for every request. -/
def feePaymentAmountErrors (_req : PaymentRequest) : List (String × String) := []

/-- The full view entry point (views.py 377-509): serializer validation runs
first and, per feePaymentAmountErrors, never rejects an amount; then the
create/accumulate logic runs. -/
def feePaymentCreateView (fss : List FeeStructureRow) (db : List FeePaymentRow)
    (req : PaymentRequest) :
    List FeePaymentRow × Except (List (String × String)) FeePaymentRow :=
  match feePaymentAmountErrors req with
  | [] =>
    let r := feePaymentCreate fss db req
    (r.1, Except.ok r.2)
  | errs => (db, Except.error errs)

/-! Helper lemmas about the grading engine. -/

theorem resultSave_marks (s : ResultScores) :
    (resultSave s).marksObtained = s.ca1 + s.ca2 + s.ca3 + s.ca4 + s.exam := rfl

theorem resultSave_total (s : ResultScores) : (resultSave s).totalMarks = 100 := rfl

theorem resultSave_grade (s : ResultScores) :
    (resultSave s).grade =
      gradeOf (resultPercentage (s.ca1 + s.ca2 + s.ca3 + s.ca4 + s.exam) 100) := rfl

theorem resultPercentage_hundred (m : ℚ) : resultPercentage m 100 = m := by
  unfold resultPercentage
  rw [if_pos (by norm_num : (100 : ℚ) > 0)]
  field_simp

/-- Numeric rank of each letter band, F lowest, A+ highest. -/
def bandRank (g : String) : ℕ :=
  if g = "A+" then 7 else if g = "A" then 6 else if g = "B+" then 5
  else if g = "B" then 4 else if g = "C+" then 3 else if g = "C" then 2
  else if g = "D" then 1 else 0

/-- Numeric rank of the band assigned to a percentage, matching
bandRank after gradeOf. -/
def gradeIdxOfPct (p : ℚ) : ℕ :=
  if p ≥ 90 then 7 else if p ≥ 80 then 6 else if p ≥ 70 then 5
  else if p ≥ 60 then 4 else if p ≥ 50 then 3 else if p ≥ 40 then 2
  else if p ≥ 30 then 1 else 0

theorem bandRank_gradeOf (p : ℚ) : bandRank (gradeOf p) = gradeIdxOfPct p := by
  unfold gradeOf gradeIdxOfPct
  split_ifs <;> rfl

set_option maxHeartbeats 2000000 in
theorem gradeIdx_mono {p q : ℚ} (h : p ≤ q) : gradeIdxOfPct p ≤ gradeIdxOfPct q := by
  unfold gradeIdxOfPct
  split_ifs <;> first | omega | (exfalso; linarith)

theorem bandRank_gradeOf_mono {p q : ℚ} (h : p ≤ q) :
    bandRank (gradeOf p) ≤ bandRank (gradeOf q) := by
  rw [bandRank_gradeOf, bandRank_gradeOf]
  exact gradeIdx_mono h

/-- C2: for every saved Result, marks_obtained is the sum of the four CA
scores plus the exam score, total_marks is 100, the percentage equals
marks_obtained / total_marks * 100, the letter grade is the descending
inclusive banding of the percentage, and in particular a percentage of
exactly 90 gives A+, 89.99 gives A, 40 gives C, 39.99 gives D, 0 gives F. -/
theorem c2_result_derivation (s : ResultScores) :
    (resultSave s).marksObtained = s.ca1 + s.ca2 + s.ca3 + s.ca4 + s.exam ∧
    (resultSave s).totalMarks = 100 ∧
    resultPercentage (resultSave s).marksObtained (resultSave s).totalMarks =
      (resultSave s).marksObtained / (resultSave s).totalMarks * 100 ∧
    (resultSave s).grade =
      gradeOf (resultPercentage (resultSave s).marksObtained (resultSave s).totalMarks) ∧
    gradeOf 90 = "A+" ∧ gradeOf (8999 / 100) = "A" ∧ gradeOf 40 = "C" ∧
    gradeOf (3999 / 100) = "D" ∧ gradeOf 0 = "F" := by
  refine ⟨rfl, rfl, ?_, rfl, ?_, ?_, ?_, ?_, ?_⟩
  · rw [resultSave_total]
    unfold resultPercentage
    rw [if_pos (by norm_num : (100 : ℚ) > 0)]
  · norm_num [gradeOf]
  · norm_num [gradeOf]
  · norm_num [gradeOf]
  · norm_num [gradeOf]
  · norm_num [gradeOf]

/-- C9: for valid score inputs (each CA in [0, 10], exam in [0, 60]), raising
the scores coordinatewise — in particular raising any single score within its
bound with the others held fixed — never decreases marks_obtained or the
percentage and never moves the grade to a lower band. -/
theorem c9_grade_monotonicity (a b : ResultScores)
    (hva : validateResultScores a = []) (hvb : validateResultScores b = [])
    (h1 : a.ca1 ≤ b.ca1) (h2 : a.ca2 ≤ b.ca2) (h3 : a.ca3 ≤ b.ca3)
    (h4 : a.ca4 ≤ b.ca4) (h5 : a.exam ≤ b.exam) :
    (resultSave a).marksObtained ≤ (resultSave b).marksObtained ∧
    resultPercentage (resultSave a).marksObtained (resultSave a).totalMarks ≤
      resultPercentage (resultSave b).marksObtained (resultSave b).totalMarks ∧
    bandRank (resultSave a).grade ≤ bandRank (resultSave b).grade := by
  have hm : (resultSave a).marksObtained ≤ (resultSave b).marksObtained := by
    rw [resultSave_marks, resultSave_marks]
    linarith
  refine ⟨hm, ?_, ?_⟩
  · rw [resultSave_total, resultSave_total, resultPercentage_hundred,
      resultPercentage_hundred]
    exact hm
  · rw [resultSave_grade, resultSave_grade]
    rw [resultPercentage_hundred, resultPercentage_hundred]
    exact bandRank_gradeOf_mono (by rw [resultSave_marks, resultSave_marks] at hm; exact hm)

/-- Concrete valid score vectors used to instantiate the monotonicity claim. -/
def lowScores : ResultScores := { ca1 := 4, ca2 := 5, ca3 := 6, ca4 := 7, exam := 30 }

def highScores : ResultScores := { ca1 := 4, ca2 := 5, ca3 := 6, ca4 := 7, exam := 45 }

/-- C9 witness: raising only the exam score from 30 to 45 keeps all conclusions. -/
theorem c9_grade_monotonicity_witness :
    (resultSave lowScores).marksObtained ≤ (resultSave highScores).marksObtained ∧
    resultPercentage (resultSave lowScores).marksObtained (resultSave lowScores).totalMarks ≤
      resultPercentage (resultSave highScores).marksObtained (resultSave highScores).totalMarks ∧
    bandRank (resultSave lowScores).grade ≤ bandRank (resultSave highScores).grade :=
  c9_grade_monotonicity lowScores highScores
    (by norm_num [validateResultScores, lowScores])
    (by norm_num [validateResultScores, highScores])
    (by norm_num [lowScores, highScores]) (by norm_num [lowScores, highScores])
    (by norm_num [lowScores, highScores]) (by norm_num [lowScores, highScores])
    (by norm_num [lowScores, highScores])

/-- C7: a result write with any CA score outside [0, 10] or an exam score
outside [0, 60] is rejected with a validation error naming the offending
field, and the table is not modified — no partial write occurs. -/
theorem c7_boundary_rejection (db : List ResultRow) (inp : ResultInput) :
    ((inp.scores.ca1 < 0 ∨ inp.scores.ca1 > 10) →
      ("ca1_score", "CA1 score must be between 0 and 10") ∈ validateResultScores inp.scores) ∧
    ((inp.scores.ca2 < 0 ∨ inp.scores.ca2 > 10) →
      ("ca2_score", "CA2 score must be between 0 and 10") ∈ validateResultScores inp.scores) ∧
    ((inp.scores.ca3 < 0 ∨ inp.scores.ca3 > 10) →
      ("ca3_score", "CA3 score must be between 0 and 10") ∈ validateResultScores inp.scores) ∧
    ((inp.scores.ca4 < 0 ∨ inp.scores.ca4 > 10) →
      ("ca4_score", "CA4 score must be between 0 and 10") ∈ validateResultScores inp.scores) ∧
    ((inp.scores.exam < 0 ∨ inp.scores.exam > 60) →
      ("exam_score", "Exam score must be between 0 and 60") ∈ validateResultScores inp.scores) ∧
    (validateResultScores inp.scores ≠ [] →
      resultCreate db inp = (db, Except.error (validateResultScores inp.scores))) := by
  refine ⟨?_, ?_, ?_, ?_, ?_, ?_⟩
  · intro h; simp [validateResultScores, h]
  · intro h; simp [validateResultScores, h]
  · intro h; simp [validateResultScores, h]
  · intro h; simp [validateResultScores, h]
  · intro h; simp [validateResultScores, h]
  · intro h; simp [resultCreate, h]

/-- Score vector with a CA score of 10.01 and an exam score of 60.01. -/
def badScores : ResultScores :=
  { ca1 := 1001 / 100, ca2 := 5, ca3 := 5, ca4 := 5, exam := 6001 / 100 }

def badInput : ResultInput :=
  { key := { student := 1, subject := 1, academicYear := 1, term := RTerm.first }
    scores := badScores }

/-- C7 witness: a CA1 score of 10.01 and an exam score of 60.01 are rejected
naming the fields, and the empty table stays empty. -/
theorem c7_boundary_rejection_witness :
    ("ca1_score", "CA1 score must be between 0 and 10") ∈ validateResultScores badScores ∧
    ("exam_score", "Exam score must be between 0 and 60") ∈ validateResultScores badScores ∧
    resultCreate [] badInput = ([], Except.error (validateResultScores badScores)) := by
  have h := c7_boundary_rejection [] badInput
  exact ⟨h.1 (Or.inr (by norm_num [badInput, badScores])),
    h.2.2.2.2.1 (Or.inr (by norm_num [badInput, badScores])),
    h.2.2.2.2.2 (by norm_num [validateResultScores, badInput, badScores]; simp)⟩

/-- Fixture: a valid score vector and an already-recorded row. -/
def row1Scores : ResultScores := { ca1 := 5, ca2 := 5, ca3 := 5, ca4 := 5, exam := 30 }

def key1 : ResultKey := { student := 1, subject := 1, academicYear := 1, term := RTerm.first }

def row1 : ResultRow := { key := key1, scores := row1Scores, saved := resultSave row1Scores }

/-- C3 counterexample: recording the same (student, subject, academic_year,
term) key a second time with identical, valid inputs does not upsert — the
create path fails with the unique-set error and writes nothing, contradicting
the claim that the repeat recording succeeds without failing. -/
theorem c3_counterexample :
    resultCreate [row1] { key := key1, scores := row1Scores } =
      ([row1], Except.error uniqueTogetherError) := by
  have hv : validateResultScores row1Scores = [] := by
    norm_num [validateResultScores, row1Scores]
  have hany : ([row1].any (fun r => decide (r.key = key1))) = true := by
    simp [row1]
  simp [resultCreate, hv, hany]

/-- C3 amended: a create for a key that already has a Result row fails with
the unique-set validation error and leaves the table unchanged — no duplicate
row is created and the existing row is not updated in place; recording on the
create path is not an upsert. -/
theorem c3_no_upsert (db : List ResultRow) (inp : ResultInput)
    (hv : validateResultScores inp.scores = [])
    (hk : ∃ r ∈ db, r.key = inp.key) :
    resultCreate db inp = (db, Except.error uniqueTogetherError) := by
  have hany : db.any (fun r => decide (r.key = inp.key)) = true := by
    rcases hk with ⟨r, hr, hkey⟩
    exact List.any_eq_true.mpr ⟨r, hr, by simp [hkey]⟩
  simp [resultCreate, hv, hany]

/-- C3 witness: with the row already present, a second recording with
different valid scores fails with the unique-set error and changes nothing. -/
theorem c3_no_upsert_witness :
    resultCreate [row1]
        { key := key1, scores := { ca1 := 6, ca2 := 6, ca3 := 6, ca4 := 6, exam := 20 } } =
      ([row1], Except.error uniqueTogetherError) :=
  c3_no_upsert [row1] _ (by norm_num [validateResultScores]) ⟨row1, by simp, rfl⟩

/-- C5 counterexample: with averages 90, 85, 85, 80 the positions are
1, 2, 2, 4 — the next distinct student below the tie receives position 4
(the 1-indexed place in the sorted list), not 3 as the claim states. -/
theorem c5_counterexample :
    (rankWithPositions [90, 85, 85, 80]).map Prod.snd = [1, 2, 2, 4] ∧
    (rankWithPositions [90, 85, 85, 80]).map Prod.snd ≠ [1, 2, 2, 3] := by
  have h : (rankWithPositions [90, 85, 85, 80]).map Prod.snd = [1, 2, 2, 4] := by
    norm_num [rankWithPositions, sortDesc, insertDesc, assignPositions, positionsGo]
  exact ⟨h, by rw [h]; decide⟩

/-- C5 amended: three students with average percentages 90, 85, 85 receive
positions 1, 2, 2 (not 1, 2, 3), and the next distinct student below them
receives position 4, its 1-indexed place in the sorted list — ranking with
gaps, not dense ranking. -/
theorem c5_tie_positions (x : ℚ) (hx : x < 85) :
    (rankWithPositions [90, 85, 85]).map Prod.snd = [1, 2, 2] ∧
    (rankWithPositions [90, 85, 85, x]).map Prod.snd = [1, 2, 2, 4] := by
  constructor
  · norm_num [rankWithPositions, sortDesc, insertDesc, assignPositions, positionsGo]
  · have h85 : ¬ ((85 : ℚ) > 85) := by norm_num
    have hgt : (85 : ℚ) > x := hx
    norm_num [rankWithPositions, sortDesc, insertDesc, assignPositions,
      positionsGo, hx, hgt, h85]

/-- C5 witness: the amended claim at the concrete fourth percentage 80. -/
theorem c5_tie_positions_witness :
    (rankWithPositions [90, 85, 85]).map Prod.snd = [1, 2, 2] ∧
    (rankWithPositions [90, 85, 85, 80]).map Prod.snd = [1, 2, 2, 4] :=
  c5_tie_positions 80 (by norm_num)

/-! The fee-resolution claim. -/

theorem find?_eq_of_mem_unique {α : Type} (p : α → Bool) (r : α) :
    ∀ l : List α, r ∈ l → p r = true → (∀ a ∈ l, p a = true → a = r) →
      l.find? p = some r := by
  intro l
  induction l with
  | nil => intro h; cases h
  | cons a as ih =>
    intro hmem hp huniq
    by_cases hpa : p a = true
    · have ha : a = r := huniq a (by simp) hpa
      subst ha
      exact List.find?_cons_of_pos as hpa
    · rw [List.find?_cons_of_neg as (by simpa using hpa)]
      rcases List.mem_cons.mp hmem with h | h
      · subst h; exact absurd hp hpa
      · exact ih h hp (fun b hb hpb => huniq b (by simp [hb]) hpb)

/-- No grade-based tuition row is found for the request: the student has no
current class, or no academic year was supplied, or the filtered lookup of
views.py 411-415 comes back empty. -/
def noGradeRow (fss : List FeeStructureRow) (req : PaymentRequest) : Prop :=
  ∀ c y, req.student.currentClass = some c → req.academicYear = some y →
    fss.find? (tuitionRowFor y c.grade) = none

/-- C4 amended: when a FeeStructure row exists for (academic year, grade of
the current class of the student, tuition), its amount is the authoritative
full amount, overriding the caller-supplied structure reference and the
caller-supplied total_amount; otherwise the full amount falls back to the
caller-supplied structure amount, then to the caller-supplied total_amount
when that is nonzero, then to the incoming amount — a supplied total_amount
of zero falls through to the incoming amount (Python or-truthiness at
views.py 430), which is the one deviation from the claim as stated. -/
theorem c4_fee_resolution (fss : List FeeStructureRow) (req : PaymentRequest) :
    (∀ c y r, req.student.currentClass = some c → req.academicYear = some y →
      r ∈ fss → tuitionRowFor y c.grade r = true →
      (∀ a ∈ fss, tuitionRowFor y c.grade a = true → a = r) →
      (resolveFullAmount fss req).1 = r.amount) ∧
    (noGradeRow fss req →
      (∀ fs, req.feeStructure = some fs →
        (resolveFullAmount fss req).1 = fs.amount) ∧
      (req.feeStructure = none → req.totalAmount ≠ 0 →
        (resolveFullAmount fss req).1 = req.totalAmount) ∧
      (req.feeStructure = none → req.totalAmount = 0 →
        (resolveFullAmount fss req).1 = req.amountPaid)) := by
  constructor
  · intro c y r hc hy hrmem hpr huniq
    have hfind : fss.find? (tuitionRowFor y c.grade) = some r :=
      find?_eq_of_mem_unique _ r fss hrmem hpr huniq
    simp [resolveFullAmount, hc, hy, hfind, Option.orElse]
  · intro hng
    refine ⟨?_, ?_, ?_⟩
    · intro fs hfs
      rcases hcc : req.student.currentClass with _ | c
      · rcases hay : req.academicYear with _ | y <;>
          simp [resolveFullAmount, hcc, hay, hfs]
      · rcases hay : req.academicYear with _ | y
        · simp [resolveFullAmount, hcc, hay, hfs]
        · have hfind := hng c y hcc hay
          simp [resolveFullAmount, hcc, hay, hfind, hfs, Option.orElse]
    · intro hfs ht
      rcases hcc : req.student.currentClass with _ | c
      · rcases hay : req.academicYear with _ | y <;>
          simp [resolveFullAmount, hcc, hay, hfs, ht]
      · rcases hay : req.academicYear with _ | y
        · simp [resolveFullAmount, hcc, hay, hfs, ht]
        · have hfind := hng c y hcc hay
          simp [resolveFullAmount, hcc, hay, hfind, hfs, ht, Option.orElse]
    · intro hfs ht
      rcases hcc : req.student.currentClass with _ | c
      · rcases hay : req.academicYear with _ | y <;>
          simp [resolveFullAmount, hcc, hay, hfs, ht]
      · rcases hay : req.academicYear with _ | y
        · simp [resolveFullAmount, hcc, hay, hfs, ht]
        · have hfind := hng c y hcc hay
          simp [resolveFullAmount, hcc, hay, hfind, hfs, ht, Option.orElse]

/-- Fixture: the grade-5 tuition structure of 300 for academic year 1. -/
def fs300 : FeeStructureRow :=
  { id := 1, academicYear := 1, grade := 5, feeType := FeeType.tuition, amount := 300 }

/-- Fixture: a student currently in a grade-5 class. -/
def student1 : StudentRow := { id := 1, currentClass := some { id := 10, grade := 5 } }

/-- Fixture: a bare payment request for student1, year 1, first term, with no
caller structure, zero payload total_amount and no metadata. -/
def payReq (amt : ℚ) : PaymentRequest :=
  { student := student1, academicYear := some 1, term := some RTerm.first,
    feeStructure := none, amountPaid := amt, totalAmount := 0,
    paymentMethod := "", transactionId := "", remarks := "", dueDate := none }

/-- Fixture: a request with no student class, no structure, zero payload
total_amount and incoming amount 50. -/
def reqNoCtx : PaymentRequest :=
  { student := { id := 2, currentClass := none }, academicYear := some 1,
    term := some RTerm.first, feeStructure := none, amountPaid := 50,
    totalAmount := 0, paymentMethod := "", transactionId := "", remarks := "",
    dueDate := none }

/-- C4 counterexample: with no structure resolvable and a caller-supplied
total_amount of zero, the code takes the incoming amount 50 as the full
amount, while the claimed fallback order dictates the supplied total_amount
of 0. -/
theorem c4_counterexample :
    reqNoCtx.totalAmount = 0 ∧
    (resolveFullAmount [] reqNoCtx).1 = 50 ∧
    (resolveFullAmount [] reqNoCtx).1 ≠ reqNoCtx.totalAmount := by
  refine ⟨rfl, ?_, ?_⟩ <;> norm_num [resolveFullAmount, reqNoCtx]

/-- C4 witness: the grade-based row of 300 overrides the request context, and
the incoming-amount fallback fires for the no-context request. -/
theorem c4_fee_resolution_witness :
    (resolveFullAmount [fs300] (payReq 100)).1 = fs300.amount ∧
    (resolveFullAmount [] reqNoCtx).1 = reqNoCtx.amountPaid :=
  ⟨(c4_fee_resolution [fs300] (payReq 100)).1 { id := 10, grade := 5 } 1 fs300
      rfl rfl (by simp) (by decide)
      (fun a ha _ => by simpa using ha),
    ((c4_fee_resolution [] reqNoCtx).2
      (fun c y hc _ => by simp [reqNoCtx] at hc)).2.2 rfl rfl⟩

/-! Accumulation, status derivation and frame conditions of the ledger. -/

/-- Run a sequence of payment amounts through the create endpoint for the
payReq fixture, recording each returned (amount_paid, status). -/
def runPayments (fss : List FeeStructureRow) (db : List FeePaymentRow) :
    List ℚ → List (ℚ × PayStatus)
  | [] => []
  | a :: as =>
    let r := feePaymentCreate fss db (payReq a)
    (r.2.amountPaid, r.2.status) :: runPayments fss r.1 as

/-- Shape of the ledger row for the payReq fixture after each step of the
300-sequence: amount_paid amt, total 300, no metadata. -/
def seqRow (amt : ℚ) (st : PayStatus) : FeePaymentRow :=
  { studentId := 1, feeStructureId := some 1, academicYear := some 1,
    term := some RTerm.first, amountPaid := amt, totalAmount := 300,
    dueDate := none, status := st, paymentMethod := "", transactionId := "",
    remarks := "" }

/-- C1 amended: for a payment applied to an existing ledger row with resolved
full amount F > 0 and non-negative previous and incoming amounts, the new
amount_paid is min(previous + incoming, F), and the derived status is paid
iff the new amount_paid reaches F, partial iff it is strictly between 0 and
F, pending iff it is 0; for a full amount of 300 the payment sequence
100, 100, 100, 50 yields running totals 100 (partial), 200 (partial),
300 (paid), 300 (paid, unchanged). When the resolved full amount is 0, the
code skips the cap, which is why the claim needs F > 0 (counterexample). -/
theorem c1_fee_accumulation :
    (∀ (ex : FeePaymentRow) (req : PaymentRequest) (f : ℚ),
      0 < f → 0 ≤ ex.amountPaid → 0 ≤ req.amountPaid →
      (applyPaymentToExisting ex f req).amountPaid =
        min (ex.amountPaid + req.amountPaid) f ∧
      ((applyPaymentToExisting ex f req).status = PayStatus.paid ↔
        f ≤ (applyPaymentToExisting ex f req).amountPaid) ∧
      ((applyPaymentToExisting ex f req).status = PayStatus.part ↔
        0 < (applyPaymentToExisting ex f req).amountPaid ∧
          (applyPaymentToExisting ex f req).amountPaid < f) ∧
      ((applyPaymentToExisting ex f req).status = PayStatus.pending ↔
        (applyPaymentToExisting ex f req).amountPaid = 0)) ∧
    runPayments [fs300] [] [100, 100, 100, 50] =
      [(100, PayStatus.part), (200, PayStatus.part),
        (300, PayStatus.paid), (300, PayStatus.paid)] := by
  constructor
  · intro ex req f hf hex hreq
    have hfne : f ≠ 0 := ne_of_gt hf
    have hpaid : (applyPaymentToExisting ex f req).amountPaid =
        min (ex.amountPaid + req.amountPaid) f := by
      simp [applyPaymentToExisting, hfne]
    have hstatus : (applyPaymentToExisting ex f req).status =
        (if f ≤ min (ex.amountPaid + req.amountPaid) f then PayStatus.paid
          else if 0 < min (ex.amountPaid + req.amountPaid) f then PayStatus.part
          else PayStatus.pending) := by
      simp [applyPaymentToExisting, hfne, ge_iff_le]
    have hm0 : 0 ≤ min (ex.amountPaid + req.amountPaid) f :=
      le_min (by linarith) (le_of_lt hf)
    have hkey : ∀ m : ℚ, 0 ≤ m →
        ((if f ≤ m then PayStatus.paid else if 0 < m then PayStatus.part
          else PayStatus.pending) = PayStatus.paid ↔ f ≤ m) ∧
        ((if f ≤ m then PayStatus.paid else if 0 < m then PayStatus.part
          else PayStatus.pending) = PayStatus.part ↔ 0 < m ∧ m < f) ∧
        ((if f ≤ m then PayStatus.paid else if 0 < m then PayStatus.part
          else PayStatus.pending) = PayStatus.pending ↔ m = 0) := by
      intro m hm
      split_ifs with h1 h2
      · exact ⟨⟨fun _ => h1, fun _ => rfl⟩,
          ⟨fun h => (nomatch h), fun h => absurd h.2 (not_lt.mpr h1)⟩,
          ⟨fun h => (nomatch h), fun h0 => absurd (h0 ▸ h1) (not_le.mpr hf)⟩⟩
      · exact ⟨⟨fun h => (nomatch h), fun hle => absurd hle h1⟩,
          ⟨fun _ => ⟨h2, not_le.mp h1⟩, fun _ => rfl⟩,
          ⟨fun h => (nomatch h), fun h0 => absurd (h0 ▸ h2) (lt_irrefl 0)⟩⟩
      · exact ⟨⟨fun h => (nomatch h), fun hle => absurd hle h1⟩,
          ⟨fun h => (nomatch h), fun hc => absurd hc.1 h2⟩,
          ⟨fun _ => le_antisymm (not_lt.mp h2) hm, fun _ => rfl⟩⟩
    have h := hkey (min (ex.amountPaid + req.amountPaid) f) hm0
    rw [hpaid, hstatus]
    exact ⟨rfl, h.1, h.2.1, h.2.2⟩
  · have hfind300 : List.find? (tuitionRowFor 1 5) [fs300] = some fs300 :=
      List.find?_cons_of_pos _ (by decide)
    have hres : ∀ a : ℚ, resolveFullAmount [fs300] (payReq a) = (300, some fs300) := by
      intro a
      simp only [resolveFullAmount, payReq, student1, hfind300, Option.orElse]
      rfl
    have hk : ∀ (x a : ℚ) (st : PayStatus),
        List.find? (paymentKeyMatches (payReq a)) [seqRow x st] = some (seqRow x st) := by
      intro x a st
      exact List.find?_cons_of_pos _ (by simp [paymentKeyMatches, payReq, seqRow, student1])
    have hc1 : createNewPayment 300 (payReq 100) (some fs300) = seqRow 100 PayStatus.part := by
      norm_num [createNewPayment, payReq, student1, fs300, seqRow, min_def]
    have s1 : feePaymentCreate [fs300] [] (payReq 100) =
        ([seqRow 100 PayStatus.part], seqRow 100 PayStatus.part) := by
      simp only [feePaymentCreate, hres, List.find?_nil]
      rw [hc1]
      rfl
    have ha2 : applyPaymentToExisting (seqRow 100 PayStatus.part) 300 (payReq 100) =
        seqRow 200 PayStatus.part := by
      norm_num [applyPaymentToExisting, payReq, student1, seqRow, min_def]
    have s2 : feePaymentCreate [fs300] [seqRow 100 PayStatus.part] (payReq 100) =
        ([seqRow 200 PayStatus.part], seqRow 200 PayStatus.part) := by
      simp only [feePaymentCreate, hres, hk]
      rw [ha2]
      simp [replaceFirst, paymentKeyMatches, payReq, seqRow, student1]
    have ha3 : applyPaymentToExisting (seqRow 200 PayStatus.part) 300 (payReq 100) =
        seqRow 300 PayStatus.paid := by
      norm_num [applyPaymentToExisting, payReq, student1, seqRow, min_def]
    have s3 : feePaymentCreate [fs300] [seqRow 200 PayStatus.part] (payReq 100) =
        ([seqRow 300 PayStatus.paid], seqRow 300 PayStatus.paid) := by
      simp only [feePaymentCreate, hres, hk]
      rw [ha3]
      simp [replaceFirst, paymentKeyMatches, payReq, seqRow, student1]
    have ha4 : applyPaymentToExisting (seqRow 300 PayStatus.paid) 300 (payReq 50) =
        seqRow 300 PayStatus.paid := by
      norm_num [applyPaymentToExisting, payReq, student1, seqRow, min_def]
    have s4 : feePaymentCreate [fs300] [seqRow 300 PayStatus.paid] (payReq 50) =
        ([seqRow 300 PayStatus.paid], seqRow 300 PayStatus.paid) := by
      simp only [feePaymentCreate, hres, hk]
      rw [ha4]
      simp [replaceFirst, paymentKeyMatches, payReq, seqRow, student1]
    simp only [runPayments, s1, s2, s3, s4]
    rfl

/-- Fixture: an existing ledger row for student1, year 1, first term with a
prior amount_paid of 100 against a total of 300. -/
def ledger0 : FeePaymentRow :=
  { studentId := 1, feeStructureId := some 1, academicYear := some 1,
    term := some RTerm.first, amountPaid := 100, totalAmount := 300,
    dueDate := none, status := PayStatus.part, paymentMethod := "",
    transactionId := "", remarks := "" }

/-- C1 witness: the accumulation characterization at the concrete row holding
100 of 300 and an incoming payment of 100. -/
theorem c1_fee_accumulation_witness :
    (applyPaymentToExisting ledger0 300 (payReq 100)).amountPaid =
      min (ledger0.amountPaid + (payReq 100).amountPaid) 300 ∧
    ((applyPaymentToExisting ledger0 300 (payReq 100)).status = PayStatus.part ↔
      0 < (applyPaymentToExisting ledger0 300 (payReq 100)).amountPaid ∧
        (applyPaymentToExisting ledger0 300 (payReq 100)).amountPaid < 300) :=
  have h := c1_fee_accumulation.1 ledger0 (payReq 100) 300 (by norm_num)
    (by norm_num [ledger0]) (by norm_num [payReq])
  ⟨h.1, h.2.2.1⟩

/-- Fixture: a grade-5 tuition structure whose configured amount is 0. -/
def fs0 : FeeStructureRow :=
  { id := 2, academicYear := 1, grade := 5, feeType := FeeType.tuition, amount := 0 }

/-- Fixture: an existing empty ledger row for student1, year 1, first term. -/
def exRowZero : FeePaymentRow :=
  { studentId := 1, feeStructureId := some 2, academicYear := some 1,
    term := some RTerm.first, amountPaid := 0, totalAmount := 0, dueDate := none,
    status := PayStatus.pending, paymentMethod := "", transactionId := "",
    remarks := "" }

/-- C1 counterexample: with the resolved full amount F = 0 (a configured
tuition amount of 0), a payment of 100 on an existing row is not capped to
min(0 + 100, 0) = 0 and the status becomes partial, not pending: the claimed
equality new amount_paid = min(previous + incoming, F) fails at F = 0. -/
theorem c1_counterexample :
    (resolveFullAmount [fs0] (payReq 100)).1 = 0 ∧
    (feePaymentCreate [fs0] [exRowZero] (payReq 100)).2.amountPaid = 100 ∧
    (feePaymentCreate [fs0] [exRowZero] (payReq 100)).2.status = PayStatus.part ∧
    ¬ ((100 : ℚ) = min ((0 : ℚ) + 100) 0) := by
  have hfind0 : List.find? (tuitionRowFor 1 5) [fs0] = some fs0 :=
    List.find?_cons_of_pos _ (by decide)
  have hres : resolveFullAmount [fs0] (payReq 100) = (0, some fs0) := by
    simp only [resolveFullAmount, payReq, student1, hfind0, Option.orElse]
    rfl
  have hkz : List.find? (paymentKeyMatches (payReq 100)) [exRowZero] = some exRowZero :=
    List.find?_cons_of_pos _ (by decide)
  have happ : (feePaymentCreate [fs0] [exRowZero] (payReq 100)).2 =
      applyPaymentToExisting exRowZero 0 (payReq 100) := by
    simp only [feePaymentCreate, hres, hkz]
  refine ⟨by rw [hres], ?_, ?_, by norm_num⟩
  · rw [happ]
    norm_num [applyPaymentToExisting, exRowZero, payReq]
  · rw [happ]
    norm_num [applyPaymentToExisting, exRowZero, payReq]

/-- Fixture: a request whose incoming amount is negative. -/
def negReq : PaymentRequest :=
  { student := { id := 3, currentClass := none }, academicYear := some 1,
    term := some RTerm.first, feeStructure := none, amountPaid := -50,
    totalAmount := 0, paymentMethod := "", transactionId := "", remarks := "",
    dueDate := none }

/-- C6 counterexample: a payment with negative incoming amount -50 passes
validation — FeePaymentSerializer declares no amount validators — and a
ledger row holding -50 is created; no ValidationError occurs and the table
is modified, contradicting the claim. -/
theorem c6_counterexample :
    negReq.amountPaid < 0 ∧
    (feePaymentCreateView [] [] negReq).2 =
      Except.ok (feePaymentCreate [] [] negReq).2 ∧
    (feePaymentCreateView [] [] negReq).1 = [(feePaymentCreate [] [] negReq).2] ∧
    (feePaymentCreate [] [] negReq).2.amountPaid = -50 := by
  refine ⟨by norm_num [negReq], rfl, by decide, by decide⟩

/-- C6 amended: applying a fee payment with a negative incoming amount is not
rejected: no ValidationError is raised (the serializer performs no amount
validation) and the create/accumulate logic runs with the negative amount;
in particular, on a fresh key with no resolvable fee context and a zero
payload total_amount, the created row holds the negative amount itself. -/
theorem c6_negative_amount (fss : List FeeStructureRow) (db : List FeePaymentRow)
    (req : PaymentRequest) (hneg : req.amountPaid < 0) :
    (feePaymentCreateView fss db req).2 =
      Except.ok (feePaymentCreate fss db req).2 ∧
    (feePaymentCreateView fss db req).1 = (feePaymentCreate fss db req).1 ∧
    (db.find? (paymentKeyMatches req) = none → req.student.currentClass = none →
      req.feeStructure = none → req.totalAmount = 0 →
      (feePaymentCreate fss db req).2.amountPaid = req.amountPaid) := by
  refine ⟨rfl, rfl, ?_⟩
  intro h1 h2 h3 h4
  simp [feePaymentCreate, resolveFullAmount, createNewPayment, h1, h2, h3, h4]

/-- C6 witness: the amended claim at the concrete negative request. -/
theorem c6_negative_amount_witness :
    (feePaymentCreateView [] [] negReq).2 =
      Except.ok (feePaymentCreate [] [] negReq).2 ∧
    (feePaymentCreate [] [] negReq).2.amountPaid = negReq.amountPaid :=
  have h := c6_negative_amount [] [] negReq (by norm_num [negReq])
  ⟨h.1, h.2.2 rfl rfl rfl rfl⟩

/-- C8 amended: for a payment applied to an existing ledger row with a
non-negative incoming amount, amount_paid does not decrease provided the
freshly resolved full amount is zero (no cap applied) or at least the prior
amount_paid, and it stays capped at the resolved full amount whenever that
is nonzero; re-resolution to a full amount below the prior amount_paid
clamps the running total downward (counterexample), so the unconditional
claim fails. -/
theorem c8_amount_paid_monotone (ex : FeePaymentRow) (req : PaymentRequest)
    (f : ℚ) (hinc : 0 ≤ req.amountPaid) (hf : f = 0 ∨ ex.amountPaid ≤ f) :
    ex.amountPaid ≤ (applyPaymentToExisting ex f req).amountPaid ∧
    (f ≠ 0 → (applyPaymentToExisting ex f req).amountPaid ≤ f) := by
  by_cases hfz : f = 0
  · subst hfz
    constructor
    · simp [applyPaymentToExisting]
      linarith
    · intro h
      exact absurd rfl h
  · have hle : ex.amountPaid ≤ f := by
      rcases hf with hf | hf
      · exact absurd hf hfz
      · exact hf
    constructor
    · simp only [applyPaymentToExisting, if_pos hfz]
      exact le_min (by linarith) hle
    · intro _
      simp only [applyPaymentToExisting, if_pos hfz]
      exact min_le_right _ _

/-- Fixture: the grade-5 tuition structure re-configured to 200. -/
def fs200 : FeeStructureRow :=
  { id := 3, academicYear := 1, grade := 5, feeType := FeeType.tuition, amount := 200 }

/-- Fixture: an existing ledger row already holding 300 paid of 300. -/
def exRow300 : FeePaymentRow :=
  { studentId := 1, feeStructureId := some 1, academicYear := some 1,
    term := some RTerm.first, amountPaid := 300, totalAmount := 300,
    dueDate := none, status := PayStatus.paid, paymentMethod := "",
    transactionId := "", remarks := "" }

/-- C8 counterexample: the schedule now resolves the full amount to 200 while
the row already holds 300; a further non-negative payment of 10 lowers
amount_paid to 200, so amount_paid is not monotonically non-decreasing. -/
theorem c8_counterexample :
    (0 : ℚ) ≤ (payReq 10).amountPaid ∧
    (feePaymentCreate [fs200] [exRow300] (payReq 10)).2.amountPaid = 200 ∧
    (feePaymentCreate [fs200] [exRow300] (payReq 10)).2.amountPaid <
      exRow300.amountPaid := by
  have hfind2 : List.find? (tuitionRowFor 1 5) [fs200] = some fs200 :=
    List.find?_cons_of_pos _ (by decide)
  have hres : resolveFullAmount [fs200] (payReq 10) = (200, some fs200) := by
    simp only [resolveFullAmount, payReq, student1, hfind2, Option.orElse]
    rfl
  have hk3 : List.find? (paymentKeyMatches (payReq 10)) [exRow300] = some exRow300 :=
    List.find?_cons_of_pos _ (by decide)
  have happ : (feePaymentCreate [fs200] [exRow300] (payReq 10)).2 =
      applyPaymentToExisting exRow300 200 (payReq 10) := by
    simp only [feePaymentCreate, hres, hk3]
  refine ⟨by norm_num [payReq], ?_, ?_⟩
  · rw [happ]
    norm_num [applyPaymentToExisting, exRow300, payReq, min_def]
  · rw [happ]
    norm_num [applyPaymentToExisting, exRow300, payReq, min_def]

/-- C8 witness: the amended monotonicity at the row holding 100 of 300 with
an incoming payment of 100 and resolved full amount 300. -/
theorem c8_amount_paid_monotone_witness :
    ledger0.amountPaid ≤ (applyPaymentToExisting ledger0 300 (payReq 100)).amountPaid ∧
    ((300 : ℚ) ≠ 0 → (applyPaymentToExisting ledger0 300 (payReq 100)).amountPaid ≤ 300) :=
  c8_amount_paid_monotone ledger0 (payReq 100) 300 (by norm_num [payReq])
    (Or.inr (by norm_num [ledger0]))

/-- C10: updating an existing ledger row never changes its student,
academic_year, term, or stored fee_structure reference — in particular the
reference is not re-pointed to the freshly resolved structure — and each
metadata field (payment_method, transaction_id, remarks, due_date) is
overwritten exactly when the caller supplied a truthy (non-empty) value;
total_amount is refreshed only when a nonzero full amount was resolved. -/
theorem c10_update_frame (ex : FeePaymentRow) (req : PaymentRequest) (f : ℚ) :
    (applyPaymentToExisting ex f req).studentId = ex.studentId ∧
    (applyPaymentToExisting ex f req).academicYear = ex.academicYear ∧
    (applyPaymentToExisting ex f req).term = ex.term ∧
    (applyPaymentToExisting ex f req).feeStructureId = ex.feeStructureId ∧
    (req.paymentMethod = "" →
      (applyPaymentToExisting ex f req).paymentMethod = ex.paymentMethod) ∧
    (req.paymentMethod ≠ "" →
      (applyPaymentToExisting ex f req).paymentMethod = req.paymentMethod) ∧
    (req.transactionId = "" →
      (applyPaymentToExisting ex f req).transactionId = ex.transactionId) ∧
    (req.transactionId ≠ "" →
      (applyPaymentToExisting ex f req).transactionId = req.transactionId) ∧
    (req.remarks = "" →
      (applyPaymentToExisting ex f req).remarks = ex.remarks) ∧
    (req.remarks ≠ "" →
      (applyPaymentToExisting ex f req).remarks = req.remarks) ∧
    (req.dueDate = none →
      (applyPaymentToExisting ex f req).dueDate = ex.dueDate) ∧
    (∀ d, req.dueDate = some d →
      (applyPaymentToExisting ex f req).dueDate = some d) ∧
    (f = 0 → (applyPaymentToExisting ex f req).totalAmount = ex.totalAmount) := by
  refine ⟨rfl, rfl, rfl, rfl, ?_, ?_, ?_, ?_, ?_, ?_, ?_, ?_, ?_⟩
  · intro h; simp [applyPaymentToExisting, h]
  · intro h; simp [applyPaymentToExisting, h]
  · intro h; simp [applyPaymentToExisting, h]
  · intro h; simp [applyPaymentToExisting, h]
  · intro h; simp [applyPaymentToExisting, h]
  · intro h; simp [applyPaymentToExisting, h]
  · intro h; simp [applyPaymentToExisting, h]
  · intro d hd; simp [applyPaymentToExisting, hd]
  · intro h; simp [applyPaymentToExisting, h]

/-- Fixture: a request carrying mixed metadata: a payment method and remarks
but an empty transaction id; a due date is supplied. -/
def metaReq : PaymentRequest :=
  { student := student1, academicYear := some 1, term := some RTerm.first,
    feeStructure := none, amountPaid := 10, totalAmount := 0,
    paymentMethod := "Cash", transactionId := "", remarks := "first part",
    dueDate := some 7 }

/-- C10 witness: the frame conditions at a concrete row and mixed metadata. -/
theorem c10_update_frame_witness :
    (applyPaymentToExisting exRow300 250 metaReq).feeStructureId = exRow300.feeStructureId ∧
    (applyPaymentToExisting exRow300 250 metaReq).paymentMethod = metaReq.paymentMethod ∧
    (applyPaymentToExisting exRow300 250 metaReq).transactionId = exRow300.transactionId ∧
    (applyPaymentToExisting exRow300 250 metaReq).dueDate = some 7 :=
  have h := c10_update_frame exRow300 metaReq 250
  ⟨h.2.2.2.1, h.2.2.2.2.2.1 (by decide), h.2.2.2.2.2.2.1 (by decide),
    h.2.2.2.2.2.2.2.2.2.2.2.1 7 rfl⟩

end Raddai
